import Mathlib

/-!
Shallow embedding of `src/python/src/audio_manipulations/stream_mapping_mono_input_tracks.py`.

The script builds request objects for a remote encoding service and polls the
job status until a terminal state.  Remote calls are modelled by explicit state
passing (`ApiState` records the requests issued, and fresh identifiers stand in
for the identifiers the service would assign); the job lifecycle runner is
modelled against a finite list (respectively an infinite stream with fuel) of
simulated status responses, and its observable effects (sleeps, status fetches,
prints) are recorded in an event trace.
-/

namespace StreamMappingMonoInputTracks

/-- Job status values reported by the encoding service (`bitmovin_api_sdk.Status`). -/
inductive Status where
  | CREATED
  | QUEUED
  | RUNNING
  | FINISHED
  | ERROR
  | CANCELED
deriving DecidableEq

/-- Message classification (`bitmovin_api_sdk.MessageType`). -/
inductive MessageType where
  | INFO
  | WARNING
  | ERROR
deriving DecidableEq

/-- A message attached to a task (`bitmovin_api_sdk.Message`): its type and text. -/
structure Message where
  type : MessageType
  text : String
deriving DecidableEq

/-- The task object returned by the status endpoint (`bitmovin_api_sdk.Task`):
the fields the script reads are `status`, `progress` and `messages`. -/
structure Task where
  status : Status
  progress : Nat
  messages : List Message
deriving DecidableEq

/-- Output channel roles (`bitmovin_api_sdk.AudioMixChannelType`), restricted to
the constructors the script uses. -/
inductive AudioMixChannelType where
  | FRONT_LEFT
  | FRONT_RIGHT
  | BACK_LEFT
  | BACK_RIGHT
  | CENTER
  | LOW_FREQUENCY
deriving DecidableEq

/-- Channel layouts used by the script (`bitmovin_api_sdk.AudioMixInputChannelLayout`). -/
inductive AudioMixInputChannelLayout where
  | CL_STEREO
  | CL_5_1_BACK
deriving DecidableEq

/-- Helper class of the script representing the mapping from source channels to
output channels (`ChannelMappingConfig`). -/
structure ChannelMappingConfig where
  output_channel_type : AudioMixChannelType
  source_channel_number : Nat
deriving DecidableEq

/-- The stereo mapping table built literally in `main` (lines 104-107). -/
def stereo_map : List ChannelMappingConfig :=
  [ { output_channel_type := AudioMixChannelType.FRONT_LEFT, source_channel_number := 0 },
    { output_channel_type := AudioMixChannelType.FRONT_RIGHT, source_channel_number := 1 } ]

/-- The surround mapping table built literally in `main` (lines 108-115). -/
def surround_map : List ChannelMappingConfig :=
  [ { output_channel_type := AudioMixChannelType.FRONT_LEFT, source_channel_number := 2 },
    { output_channel_type := AudioMixChannelType.FRONT_RIGHT, source_channel_number := 3 },
    { output_channel_type := AudioMixChannelType.BACK_LEFT, source_channel_number := 4 },
    { output_channel_type := AudioMixChannelType.BACK_RIGHT, source_channel_number := 5 },
    { output_channel_type := AudioMixChannelType.CENTER, source_channel_number := 6 },
    { output_channel_type := AudioMixChannelType.LOW_FREQUENCY, source_channel_number := 7 } ]

/-! ### Path handling

`_build_absolute_path` calls `os.path.join` (POSIX semantics, since the output
paths are S3 object paths with separator `/`).  `posixpath.join` starts from
the first argument and, for each further component `b`: if `b` starts with the
separator it REPLACES the accumulated path; otherwise it is appended, with a
separator inserted unless the accumulated path is empty or already ends in the
separator. -/

/-- Whether a string starts with the path separator, as in `b.startswith(sep)`. -/
def startsWithSlash (s : String) : Bool :=
  match s.data with
  | [] => false
  | c :: _ => c == '/'

/-- Whether a string ends with the path separator, as in `path.endswith(sep)`. -/
def endsWithSlash (s : String) : Bool :=
  match s.data.getLast? with
  | some c => c == '/'
  | none => false

/-- One step of `posixpath.join`: combine the accumulated path with component `b`. -/
def osPathJoinStep (p b : String) : String :=
  if startsWithSlash b then b
  else if p = "" || endsWithSlash p then p ++ b
  else p ++ "/" ++ b

/-- `posixpath.join a ps`: fold the join step over the remaining components. -/
def osPathJoin (a : String) (ps : List String) : String :=
  ps.foldl osPathJoinStep a

/-- `_build_absolute_path` (lines 506-517): joins the configured S3 output base
path, the example name and the given relative path.  The base path and example
name are runtime values, so they are parameters here. -/
def build_absolute_path (basePath exampleName relative_path : String) : String :=
  osPathJoin basePath [exampleName, relative_path]

/-- A join step whose second component is the bare separator discards the
accumulated path entirely, whatever it is. -/
lemma osPathJoinStep_abs (p : String) : osPathJoinStep p "/" = "/" := rfl

/-! ### Stream graph assembly

Remote creation calls are modelled by explicit state passing: `ApiState.nextId`
is the next fresh identifier the service assigns, and the state records every
ingest-creation and mix-creation request, in order. -/

/-- Track selection modes used by the script (`bitmovin_api_sdk.StreamSelectionMode`). -/
inductive StreamSelectionMode where
  | AUTO
  | AUDIO_RELATIVE
deriving DecidableEq

/-- The ingest-creation request body (`bitmovin_api_sdk.IngestInputStream`):
input id, input path, selection mode and, for audio-relative selection, the
relative position of the track. -/
structure IngestInputStream where
  input_id : Nat
  input_path : String
  selection_mode : StreamSelectionMode
  position : Option Nat
deriving DecidableEq

/-- Source sub-channel kinds (`bitmovin_api_sdk.AudioMixSourceChannelType`),
restricted to the constructor the script uses. -/
inductive AudioMixSourceChannelType where
  | CHANNEL_NUMBER
deriving DecidableEq

/-- A source sub-channel reference (`bitmovin_api_sdk.AudioMixInputStreamSourceChannel`). -/
structure AudioMixInputStreamSourceChannel where
  type_ : AudioMixSourceChannelType
  channel_number : Nat
deriving DecidableEq

/-- An output-channel assignment (`bitmovin_api_sdk.AudioMixInputStreamChannel`):
the ingest it draws from, the output channel role, and its source sub-channels. -/
structure AudioMixInputStreamChannel where
  input_stream_id : Nat
  output_channel_type : AudioMixChannelType
  source_channels : List AudioMixInputStreamSourceChannel
deriving DecidableEq

/-- The mixed-stream request body (`bitmovin_api_sdk.AudioMixInputStream`). -/
structure AudioMixInputStream where
  channel_layout : AudioMixInputChannelLayout
  audio_mix_channels : List AudioMixInputStreamChannel
deriving DecidableEq

/-- State of the modelled remote service: the next fresh identifier and the
requests received so far, in order. -/
structure ApiState where
  nextId : Nat
  ingestCalls : List IngestInputStream
  mixCalls : List AudioMixInputStream
deriving DecidableEq

/-- `_create_ingest_input_stream_for_audio_track` (lines 306-333): builds an
`IngestInputStream` with `AUDIO_RELATIVE` selection at the given position and
issues one create call; the service returns the fresh identifier of the created
resource. -/
def create_ingest_input_stream_for_audio_track (st : ApiState) (inputId : Nat)
    (input_path : String) (position : Nat) : Nat × ApiState :=
  let ingest_input_stream : IngestInputStream :=
    { input_id := inputId
      input_path := input_path
      selection_mode := StreamSelectionMode.AUDIO_RELATIVE
      position := some position }
  ( st.nextId,
    { nextId := st.nextId + 1
      ingestCalls := st.ingestCalls ++ [ingest_input_stream]
      mixCalls := st.mixCalls } )

/-- The `for mapping_config in mapping_configs` loop of
`_create_audio_mix_input_stream` (lines 342-361): for each entry, create an
ingest selecting that source track, build an output-channel assignment pairing
the fresh ingest with the entry's output channel role, give it the single
source sub-channel number 0, and append it to the mix's channel list. -/
def audioMixLoop (inputId : Nat) (input_file_path : String) :
    List ChannelMappingConfig → AudioMixInputStream → ApiState →
      AudioMixInputStream × ApiState
  | [], audio_mix_input_stream, st => (audio_mix_input_stream, st)
  | mapping_config :: rest, audio_mix_input_stream, st =>
    let (ingestId, st1) := create_ingest_input_stream_for_audio_track st inputId
        input_file_path mapping_config.source_channel_number
    let output_channel0 : AudioMixInputStreamChannel :=
      { input_stream_id := ingestId
        output_channel_type := mapping_config.output_channel_type
        source_channels := [] }
    let source_channel : AudioMixInputStreamSourceChannel :=
      { type_ := AudioMixSourceChannelType.CHANNEL_NUMBER
        channel_number := 0 }
    let output_channel :=
      { output_channel0 with
          source_channels := output_channel0.source_channels ++ [source_channel] }
    audioMixLoop inputId input_file_path rest
      { audio_mix_input_stream with
          audio_mix_channels :=
            audio_mix_input_stream.audio_mix_channels ++ [output_channel] }
      st1

/-- `_create_audio_mix_input_stream` (lines 336-366): build an empty mix with
the given channel layout, run the loop over the mapping configs, then issue one
mixed-stream create call (which also consumes a fresh identifier). -/
def create_audio_mix_input_stream (st : ApiState) (encodingId inputId : Nat)
    (input_file_path : String) (channel_layout : AudioMixInputChannelLayout)
    (mapping_configs : List ChannelMappingConfig) :
    AudioMixInputStream × ApiState :=
  let audio_mix_input_stream : AudioMixInputStream :=
    { channel_layout := channel_layout, audio_mix_channels := [] }
  let (amis, st1) :=
    audioMixLoop inputId input_file_path mapping_configs audio_mix_input_stream st
  ( amis,
    { nextId := st1.nextId + 1
      ingestCalls := st1.ingestCalls
      mixCalls := st1.mixCalls ++ [amis] } )

/-- Specification-side description of the ingest requests the loop issues for a
mapping table: one per entry, in table order, selecting the entry's source
track by relative position. -/
def ingestCallsFor (inputId : Nat) (input_file_path : String)
    (cfgs : List ChannelMappingConfig) : List IngestInputStream :=
  cfgs.map fun mc =>
    { input_id := inputId
      input_path := input_file_path
      selection_mode := StreamSelectionMode.AUDIO_RELATIVE
      position := some mc.source_channel_number }

/-- Specification-side description of the assignment list the loop builds when
the first fresh identifier is `base`: entry `k` is paired with ingest
`base + k` and one source sub-channel, channel number 0. -/
def channelsFor (base : Nat) : List ChannelMappingConfig → List AudioMixInputStreamChannel
  | [] => []
  | mc :: rest =>
    { input_stream_id := base
      output_channel_type := mc.output_channel_type
      source_channels :=
        [ { type_ := AudioMixSourceChannelType.CHANNEL_NUMBER, channel_number := 0 } ] }
      :: channelsFor (base + 1) rest

/-! ### MP4 muxing -/

/-- Access permissions used by the script (`bitmovin_api_sdk.AclPermission`). -/
inductive AclPermission where
  | PUBLIC_READ
deriving DecidableEq

/-- `bitmovin_api_sdk.AclEntry`. -/
structure AclEntry where
  permission : AclPermission
deriving DecidableEq

/-- `bitmovin_api_sdk.EncodingOutput`: the output location of a muxing. -/
structure EncodingOutput where
  output_path : String
  output_id : Nat
  acl : List AclEntry
deriving DecidableEq

/-- `bitmovin_api_sdk.MuxingStream`: one stream packaged into a muxing. -/
structure MuxingStream where
  stream_id : Nat
deriving DecidableEq

/-- `bitmovin_api_sdk.Mp4Muxing`: the muxing request body the script builds. -/
structure Mp4Muxing where
  outputs : List EncodingOutput
  filename : String
  streams : List MuxingStream
deriving DecidableEq

/-- `_build_encoding_output` (lines 485-503): public-read ACL and the absolute
path built from the configured base path, the example name and the relative path. -/
def build_encoding_output (basePath exampleName : String) (outputId : Nat)
    (output_path : String) : EncodingOutput :=
  let acl_entry : AclEntry := { permission := AclPermission.PUBLIC_READ }
  { output_path := build_absolute_path basePath exampleName output_path
    output_id := outputId
    acl := [acl_entry] }

/-- The `for stream in streams` loop of `_create_mp4_muxing` (lines 477-479):
append one `MuxingStream` per stream, in list order.  Streams are identified by
their service-assigned identifiers. -/
def addMuxingStreams (muxing : Mp4Muxing) : List Nat → Mp4Muxing
  | [] => muxing
  | sid :: rest =>
    addMuxingStreams
      { muxing with streams := muxing.streams ++ [{ stream_id := sid }] } rest

/-- `_create_mp4_muxing` (lines 456-482): build the muxing with one encoding
output and the given file name, then append each stream in order. -/
def create_mp4_muxing (basePath exampleName : String) (outputId : Nat)
    (output_path : String) (streamIds : List Nat) (file_name : String) : Mp4Muxing :=
  let muxing : Mp4Muxing :=
    { outputs := [build_encoding_output basePath exampleName outputId output_path]
      filename := file_name
      streams := [] }
  addMuxingStreams muxing streamIds

/-- The single muxing-creation call in `main` (lines 149-155): relative output
path `"/"`, the three streams video, stereo audio, surround audio, and file
name `stereo-and-surround-tracks-mapped.mp4`. -/
def main_mp4_muxing (basePath exampleName : String)
    (outputId videoStreamId audioStream1Id audioStream2Id : Nat) : Mp4Muxing :=
  create_mp4_muxing basePath exampleName outputId "/"
    [videoStreamId, audioStream1Id, audioStream2Id]
    "stereo-and-surround-tracks-mapped.mp4"

/-! ### Job lifecycle runner

`_execute_encoding` starts the encoding, then repeatedly calls
`_wait_for_enoding_to_finish` (sleep 5, fetch status, print it) until the
status is `FINISHED` or `ERROR`.  The status endpoint is modelled by the list
of tasks it returns on successive polls; an exhausted list models an endpoint
that never answers again, so the run does not terminate (`none`).  Observable
effects are recorded as events. -/

/-- Observable effects of the job lifecycle runner, in order of occurrence. -/
inductive Event where
  | startEncoding
  | sleep (duration : Nat)
  | fetchStatus
  | printStatus (status : Status) (progress : Nat)
  | printText (text : String)
deriving DecidableEq

/-- The outcome of `_execute_encoding`: normal return after the success print,
or the generic `Exception("Encoding failed")`. -/
inductive ExecResult where
  | finished
  | raisedEncodingFailed
deriving DecidableEq

/-- `_wait_for_enoding_to_finish` (lines 189-200): sleep five seconds, fetch
the status, print the status line, return the task. -/
def wait_for_enoding_to_finish (task : Task) : List Event × Task :=
  ( [ Event.sleep 5, Event.fetchStatus, Event.printStatus task.status task.progress ],
    task )

/-- `_log_task_errors` (lines 520-534): nothing for a missing task; otherwise
filter the task's messages to the ERROR-typed ones and print each text, in
order.  Returns the list of printed texts. -/
def log_task_errors : Option Task → List String
  | none => []
  | some task =>
    let filtered := task.messages.filter fun x => decide (x.type = MessageType.ERROR)
    filtered.foldl (fun printed message => printed ++ [message.text]) []

/-- The polling loop of `_execute_encoding` (lines 177-181): one unconditional
wait-and-fetch, then repeat while the status is neither `FINISHED` nor `ERROR`.
Consumes the simulated status responses in order; returns the accumulated
events and the final task, or `none` when the responses run out (the loop
would keep polling forever). -/
def pollLoop : List Task → Option (List Event × Task)
  | [] => none
  | t :: rest =>
    let (events, task) := wait_for_enoding_to_finish t
    if task.status ≠ Status.FINISHED ∧ task.status ≠ Status.ERROR then
      match pollLoop rest with
      | none => none
      | some (events2, final) => some (events ++ events2, final)
    else
      some (events, task)

/-- `_execute_encoding` (lines 160-186): start the encoding, poll until a
terminal status, then either log the task errors and raise, or print the
success message and return. -/
def execute_encoding (statuses : List Task) : Option (List Event × ExecResult) :=
  match pollLoop statuses with
  | none => none
  | some (events, task) =>
    if task.status = Status.ERROR then
      some ( Event.startEncoding :: events
               ++ (log_task_errors (some task)).map (fun t => Event.printText t),
             ExecResult.raisedEncodingFailed )
    else
      some ( Event.startEncoding :: events
               ++ [Event.printText "Encoding finished successfully"],
             ExecResult.finished )

/-- Number of status requests recorded in an event trace. -/
def countFetches : List Event → Nat
  | [] => 0
  | Event.fetchStatus :: rest => countFetches rest + 1
  | _ :: rest => countFetches rest

/-- The same polling loop run against a status endpoint modelled as an infinite
stream `f` of statuses (`f k` is the status fetched by poll number `k + 1`);
`fuel` bounds the number of polls observed.  Returns the number of polls
performed when a terminal status is reached within `fuel` polls. -/
def pollLoopStream (f : Nat → Status) : Nat → Nat → Option Nat
  | 0, _ => none
  | fuel + 1, k =>
    if f k ≠ Status.FINISHED ∧ f k ≠ Status.ERROR then
      pollLoopStream f fuel (k + 1)
    else
      some (k + 1)

/-! ### Helper lemmas -/

/-- Characterization of the assembly loop: it appends one assignment per table
entry (numbered from the current fresh identifier) and records one ingest call
per entry, in table order; it issues no mix call. -/
lemma audioMixLoop_spec (inputId : Nat) (p : String)
    (cfgs : List ChannelMappingConfig) (amis : AudioMixInputStream) (st : ApiState) :
    audioMixLoop inputId p cfgs amis st =
      ( { channel_layout := amis.channel_layout
          audio_mix_channels := amis.audio_mix_channels ++ channelsFor st.nextId cfgs },
        { nextId := st.nextId + cfgs.length
          ingestCalls := st.ingestCalls ++ ingestCallsFor inputId p cfgs
          mixCalls := st.mixCalls } ) := by
  induction cfgs generalizing amis st with
  | nil => simp [audioMixLoop, channelsFor, ingestCallsFor]
  | cons mc rest ih =>
    dsimp only [audioMixLoop, create_ingest_input_stream_for_audio_track]
    rw [ih]
    simp only [Prod.mk.injEq, AudioMixInputStream.mk.injEq, ApiState.mk.injEq,
      channelsFor, ingestCallsFor, List.map_cons, List.append_assoc,
      List.singleton_append, List.cons_append, List.nil_append, List.length_cons]
    refine ⟨trivial, by omega, trivial, trivial⟩

lemma channelsFor_map_roles (base : Nat) (cfgs : List ChannelMappingConfig) :
    (channelsFor base cfgs).map (fun c => c.output_channel_type)
      = cfgs.map fun mc => mc.output_channel_type := by
  induction cfgs generalizing base with
  | nil => simp [channelsFor]
  | cons mc rest ih => simp [channelsFor, ih]

lemma channelsFor_map_ids (base : Nat) (cfgs : List ChannelMappingConfig) :
    (channelsFor base cfgs).map (fun c => c.input_stream_id)
      = List.range' base cfgs.length := by
  induction cfgs generalizing base with
  | nil => simp [channelsFor]
  | cons mc rest ih => simp [channelsFor, ih, List.range'_succ]

lemma channelsFor_map_sources (base : Nat) (cfgs : List ChannelMappingConfig) :
    (channelsFor base cfgs).map (fun c => c.source_channels)
      = List.replicate cfgs.length
          [ { type_ := AudioMixSourceChannelType.CHANNEL_NUMBER, channel_number := 0 } ] := by
  induction cfgs generalizing base with
  | nil => simp [channelsFor]
  | cons mc rest ih => simp [channelsFor, ih, List.replicate_succ]

lemma log_foldl_eq_map (l : List Message) (acc : List String) :
    l.foldl (fun printed message => printed ++ [message.text]) acc
      = acc ++ l.map fun m => m.text := by
  induction l generalizing acc with
  | nil => simp
  | cons m rest ih => simp [ih]

lemma countFetches_append (a b : List Event) :
    countFetches (a ++ b) = countFetches a + countFetches b := by
  induction a with
  | nil => simp [countFetches]
  | cons e rest ih =>
    cases e <;> simp [countFetches, ih] <;> omega

lemma countFetches_map_printText (l : List String) :
    countFetches (l.map fun t => Event.printText t) = 0 := by
  induction l with
  | nil => simp [countFetches]
  | cons t rest ih => simp [countFetches, ih]

lemma pollLoopStream_isSome_iff (f : Nat → Status) (fuel k : Nat) :
    (pollLoopStream f fuel k).isSome
      ↔ ∃ j, j < fuel ∧ (f (k + j) = Status.FINISHED ∨ f (k + j) = Status.ERROR) := by
  induction fuel generalizing k with
  | zero => simp [pollLoopStream]
  | succ fuel ih =>
    rw [pollLoopStream]
    by_cases h : f k ≠ Status.FINISHED ∧ f k ≠ Status.ERROR
    · rw [if_pos h, ih]
      constructor
      · rintro ⟨j, hj, hterm⟩
        exact ⟨j + 1, by omega, by simpa [Nat.add_assoc, Nat.add_comm 1 j] using hterm⟩
      · rintro ⟨j, hj, hterm⟩
        cases j with
        | zero =>
          simp only [Nat.add_zero] at hterm
          cases hterm with
          | inl hf => exact absurd hf h.1
          | inr he => exact absurd he h.2
        | succ j =>
          exact ⟨j, by omega, by simpa [Nat.add_assoc, Nat.add_comm 1 j] using hterm⟩
    · rw [if_neg h]
      simp only [Option.isSome_some, true_iff]
      refine ⟨0, by omega, ?_⟩
      rcases Decidable.not_and_iff_or_not.mp h with h1 | h1
      · exact Or.inl (Decidable.not_not.mp h1)
      · exact Or.inr (Decidable.not_not.mp h1)

/-- Characterization of `_create_audio_mix_input_stream` obtained from the loop
characterization: the mix carries one assignment per table entry, the state
records one ingest call per entry followed by one mix call. -/
lemma create_audio_mix_input_stream_eq (st : ApiState) (eid iid : Nat) (p : String)
    (layout : AudioMixInputChannelLayout) (cfgs : List ChannelMappingConfig) :
    create_audio_mix_input_stream st eid iid p layout cfgs =
      ( { channel_layout := layout, audio_mix_channels := channelsFor st.nextId cfgs },
        { nextId := st.nextId + cfgs.length + 1
          ingestCalls := st.ingestCalls ++ ingestCallsFor iid p cfgs
          mixCalls := st.mixCalls ++
            [ { channel_layout := layout
                audio_mix_channels := channelsFor st.nextId cfgs } ] } ) := by
  dsimp only [create_audio_mix_input_stream]
  rw [audioMixLoop_spec]
  simp

/-! ### Claims -/

/-- C2: the channel mapping table builder produces exactly two constant ordered
tables; the stereo table has exactly 2 entries mapping source track 0 to
front-left and track 1 to front-right, in that order, and the surround table
has exactly 6 entries mapping track 2 to front-left, 3 to front-right, 4 to
back-left, 5 to back-right, 6 to center and 7 to low-frequency, in that order. -/
theorem mapping_tables_constant :
    stereo_map.length = 2 ∧ surround_map.length = 6
    ∧ stereo_map.map (fun c => (c.output_channel_type, c.source_channel_number))
        = [ (AudioMixChannelType.FRONT_LEFT, 0), (AudioMixChannelType.FRONT_RIGHT, 1) ]
    ∧ surround_map.map (fun c => (c.output_channel_type, c.source_channel_number))
        = [ (AudioMixChannelType.FRONT_LEFT, 2), (AudioMixChannelType.FRONT_RIGHT, 3),
            (AudioMixChannelType.BACK_LEFT, 4), (AudioMixChannelType.BACK_RIGHT, 5),
            (AudioMixChannelType.CENTER, 6), (AudioMixChannelType.LOW_FREQUENCY, 7) ] := by
  decide

/-- C3: for every mapping table of length N, stream assembly issues exactly N
ingest-reference creation calls, one per table entry in table order, each
selecting the audio track by relative position equal to that entry's source
track index, and exactly 1 mixed-stream creation call; the mixed stream's
assignment list preserves table order, and no two assignments of the same
table share an ingest reference. -/
theorem audio_mix_assembly_calls (st : ApiState) (eid iid : Nat) (p : String)
    (layout : AudioMixInputChannelLayout) (cfgs : List ChannelMappingConfig) :
    (create_audio_mix_input_stream st eid iid p layout cfgs).2.ingestCalls
        = st.ingestCalls ++ ingestCallsFor iid p cfgs
    ∧ (ingestCallsFor iid p cfgs).length = cfgs.length
    ∧ (ingestCallsFor iid p cfgs).map (fun r => (r.selection_mode, r.position))
        = cfgs.map (fun mc =>
            (StreamSelectionMode.AUDIO_RELATIVE, some mc.source_channel_number))
    ∧ (create_audio_mix_input_stream st eid iid p layout cfgs).2.mixCalls
        = st.mixCalls ++ [(create_audio_mix_input_stream st eid iid p layout cfgs).1]
    ∧ (create_audio_mix_input_stream st eid iid p layout cfgs).1.audio_mix_channels.map
          (fun c => c.output_channel_type) = cfgs.map (fun mc => mc.output_channel_type)
    ∧ ((create_audio_mix_input_stream st eid iid p layout cfgs).1.audio_mix_channels.map
          (fun c => c.input_stream_id)).Nodup := by
  refine ⟨?_, ?_, ?_, ?_, ?_, ?_⟩ <;>
    simp [create_audio_mix_input_stream_eq, ingestCallsFor, channelsFor_map_roles,
      channelsFor_map_ids, List.nodup_range']

/-- C4: for every entry of every mapping table, the output-channel assignment
built for it pairs the entry's ingest reference (the k-th entry receives the
k-th freshly created ingest) with the entry's output channel role, and
references exactly one source sub-channel, namely channel number 0 of the mono
ingest. -/
theorem audio_mix_assignment_shape (st : ApiState) (eid iid : Nat) (p : String)
    (layout : AudioMixInputChannelLayout) (cfgs : List ChannelMappingConfig) :
    (create_audio_mix_input_stream st eid iid p layout cfgs).1.audio_mix_channels.map
        (fun c => c.source_channels)
      = List.replicate cfgs.length
          [ { type_ := AudioMixSourceChannelType.CHANNEL_NUMBER, channel_number := 0 } ]
    ∧ (create_audio_mix_input_stream st eid iid p layout cfgs).1.audio_mix_channels.map
        (fun c => c.output_channel_type) = cfgs.map (fun mc => mc.output_channel_type)
    ∧ (create_audio_mix_input_stream st eid iid p layout cfgs).1.audio_mix_channels.map
        (fun c => c.input_stream_id) = List.range' st.nextId cfgs.length := by
  refine ⟨?_, ?_, ?_⟩ <;>
    simp [create_audio_mix_input_stream_eq, channelsFor_map_sources,
      channelsFor_map_roles, channelsFor_map_ids]

/-- C5: given the simulated job status sequence RUNNING, RUNNING, FINISHED, the
job lifecycle runner performs exactly 3 status polls and then reports success
(prints the success message and returns) without raising any exception. -/
theorem encoding_succeeds_after_three_polls :
    execute_encoding
        [ { status := Status.RUNNING, progress := 0, messages := [] },
          { status := Status.RUNNING, progress := 45, messages := [] },
          { status := Status.FINISHED, progress := 100, messages := [] } ]
      = some
        ( [ Event.startEncoding,
            Event.sleep 5, Event.fetchStatus, Event.printStatus Status.RUNNING 0,
            Event.sleep 5, Event.fetchStatus, Event.printStatus Status.RUNNING 45,
            Event.sleep 5, Event.fetchStatus, Event.printStatus Status.FINISHED 100,
            Event.printText "Encoding finished successfully" ],
          ExecResult.finished )
    ∧ (execute_encoding
        [ { status := Status.RUNNING, progress := 0, messages := [] },
          { status := Status.RUNNING, progress := 45, messages := [] },
          { status := Status.FINISHED, progress := 100, messages := [] } ]).map
        (fun r => countFetches r.1) = some 3 :=
  ⟨rfl, rfl⟩

/-- C6: given the simulated status sequence RUNNING, ERROR where the terminal
task carries an ERROR-typed message with text "bad input" and an INFO-typed
message with text "ignored", the runner polls exactly twice, prints only the
text of the ERROR-typed message among the attached messages, and then raises
the generic failure exception. -/
theorem encoding_fails_after_two_polls :
    execute_encoding
        [ { status := Status.RUNNING, progress := 0, messages := [] },
          { status := Status.ERROR, progress := 60,
            messages := [ { type := MessageType.ERROR, text := "bad input" },
                          { type := MessageType.INFO, text := "ignored" } ] } ]
      = some
        ( [ Event.startEncoding,
            Event.sleep 5, Event.fetchStatus, Event.printStatus Status.RUNNING 0,
            Event.sleep 5, Event.fetchStatus, Event.printStatus Status.ERROR 60,
            Event.printText "bad input" ],
          ExecResult.raisedEncodingFailed )
    ∧ (execute_encoding
        [ { status := Status.RUNNING, progress := 0, messages := [] },
          { status := Status.ERROR, progress := 60,
            messages := [ { type := MessageType.ERROR, text := "bad input" },
                          { type := MessageType.INFO, text := "ignored" } ] } ]).map
        (fun r => countFetches r.1) = some 2 :=
  ⟨rfl, rfl⟩

/-- C7: for every sequence of statuses returned by the status endpoint, the
polling loop terminates within any poll budget exactly when some fetched
status within that budget is FINISHED or ERROR; there is no maximum number of
polls, so for a status sequence that is never terminal the loop never
terminates, whatever the budget. -/
theorem polling_terminates_iff_terminal_status (f : Nat → Status) (fuel : Nat) :
    ((pollLoopStream f fuel 0).isSome
        ↔ ∃ k, k < fuel ∧ (f k = Status.FINISHED ∨ f k = Status.ERROR))
    ∧ ((∀ k, f k ≠ Status.FINISHED ∧ f k ≠ Status.ERROR) →
        pollLoopStream f fuel 0 = none) := by
  have hiff := pollLoopStream_isSome_iff f fuel 0
  simp only [Nat.zero_add] at hiff
  refine ⟨hiff, fun h => ?_⟩
  rcases hsome : pollLoopStream f fuel 0 with _ | n
  · rfl
  · exfalso
    rcases hiff.mp (by simp [hsome]) with ⟨j, _, hj⟩
    rcases hj with hf | he
    · exact (h j).1 hf
    · exact (h j).2 he

/-- C7 witness: a status endpoint that always reports RUNNING is never
terminal, so the loop does not terminate within a budget of 4 polls. -/
theorem polling_terminates_iff_terminal_status_witness :
    pollLoopStream (fun _ => Status.RUNNING) 4 0 = none :=
  (polling_terminates_iff_terminal_status (fun _ => Status.RUNNING) 4).2
    (fun _ => ⟨fun h => Status.noConfusion h, fun h => Status.noConfusion h⟩)

/-- C8: the single MP4 muxing created by the program contains exactly three
streams, the H.264 video stream, the stereo AAC audio stream and the 5.1 Dolby
Digital audio stream, in that order, matching the order of the stream list
passed in. -/
theorem mp4_muxing_three_streams_in_order (basePath exampleName : String)
    (outputId v a1 a2 : Nat) :
    (main_mp4_muxing basePath exampleName outputId v a1 a2).streams
        = [ { stream_id := v }, { stream_id := a1 }, { stream_id := a2 } ]
    ∧ (main_mp4_muxing basePath exampleName outputId v a1 a2).streams.length = 3 :=
  ⟨rfl, rfl⟩

/-- C9: the error-message logger given no task returns normally printing
nothing; for any task it prints exactly the texts of the ERROR-typed messages,
in their order in the task's message list. -/
theorem log_task_errors_prints_error_texts :
    log_task_errors none = []
    ∧ ∀ (task : Task),
        log_task_errors (some task)
          = (task.messages.filter fun x => decide (x.type = MessageType.ERROR)).map
              fun m => m.text := by
  refine ⟨rfl, fun task => ?_⟩
  simp [log_task_errors, log_foldl_eq_map]

/-- C10: after the job start request, the runner performs one sleep-and-fetch
cycle before inspecting any status: when the first fetched status is already
FINISHED or ERROR, the run starts with the start request, one 5-unit sleep and
one status request, and exactly one poll occurs before the runner reports
success or failure. -/
theorem first_poll_before_status_inspection (t : Task) (ts : List Task)
    (h : t.status = Status.FINISHED ∨ t.status = Status.ERROR) :
    ∃ events r, execute_encoding (t :: ts) = some (events, r)
      ∧ events.take 3 = [Event.startEncoding, Event.sleep 5, Event.fetchStatus]
      ∧ countFetches events = 1 := by
  have hpoll : pollLoop (t :: ts)
      = some ( [ Event.sleep 5, Event.fetchStatus,
                 Event.printStatus t.status t.progress ], t ) := by
    rcases h with h | h <;> simp [pollLoop, wait_for_enoding_to_finish, h]
  unfold execute_encoding
  rw [hpoll]
  dsimp only
  by_cases he : t.status = Status.ERROR
  · rw [if_pos he]
    refine ⟨_, _, rfl, rfl, ?_⟩
    simp [countFetches, countFetches_map_printText]
  · rw [if_neg he]
    exact ⟨_, _, rfl, rfl, rfl⟩

/-- C10 witness: a run whose first fetched status is FINISHED. -/
theorem first_poll_before_status_inspection_witness :
    ∃ events r,
      execute_encoding [ { status := Status.FINISHED, progress := 100, messages := [] } ]
          = some (events, r)
        ∧ events.take 3 = [Event.startEncoding, Event.sleep 5, Event.fetchStatus]
        ∧ countFetches events = 1 :=
  first_poll_before_status_inspection
    { status := Status.FINISHED, progress := 100, messages := [] } [] (Or.inl rfl)

/-- C1 (refuting the claimed path): the absolute output path produced for the
MP4 muxing is NOT the base path followed by the example name followed by the
muxing's relative output path.  `main` passes the relative output path `"/"`,
and a component that starts with the separator makes `os.path.join` discard
everything before it, so the muxing's encoding output path is `"/"` for every
configured base path and example name — the file is written to the bucket
root, not to `{base_path}/{example_name}/`, contradicting the docstring of
`_build_absolute_path`. -/
theorem mp4_muxing_output_path_discards_base_path :
    (∀ (basePath exampleName : String) (outputId v a1 a2 : Nat),
        (main_mp4_muxing basePath exampleName outputId v a1 a2).outputs.map
            (fun o => o.output_path) = ["/"])
    ∧ build_absolute_path "/outputs" "StreamMappingMonoInputTracks-2020-01-01T00:00:00" "/"
        = "/"
    ∧ "/" ≠ "/outputs/StreamMappingMonoInputTracks-2020-01-01T00:00:00/" := by
  refine ⟨fun basePath exampleName outputId v a1 a2 => ?_, rfl, by decide⟩
  simp [main_mp4_muxing, create_mp4_muxing, addMuxingStreams, build_encoding_output,
    build_absolute_path, osPathJoin, osPathJoinStep_abs]

end StreamMappingMonoInputTracks
